import Mathlib

/-!
Shallow embedding of the core of `gmemstr/minecraft-control`
(src/main.rs, src/minecraft.rs): the command bridge, the `/log`
snapshot handler, the websocket fanout session loop, and the
journal reader / broadcast bus.

Rust effects are made explicit: `unwrap` on an `Err` becomes a
`panicked` outcome, fallible operations take the outcome of the
underlying OS call as an explicit argument, and the tokio broadcast
channel is modelled as an append-only history with per-subscriber
cursors.
-/

namespace MinecraftControl

/-- Outcome of running a Rust function that returns `Result` but may also
panic (via `unwrap`). -/
inductive RustOutcome (ε α : Type) where
  | panicked
  | ok (a : α)
  | err (e : ε)
deriving DecidableEq

/-- Whether the outcome is the `Err` case of the Rust `Result`. -/
def RustOutcome.isErr {ε α : Type} : RustOutcome ε α → Bool
  | .err _ => true
  | _ => false

/-- Mirror of `MinecraftError` in src/minecraft.rs (payloads elided:
only the variant matters for control flow). -/
inductive MinecraftError where
  | LogError
  | CommandError
deriving DecidableEq

/-- Environment for one call to `MinecraftControl::command`: whether the
`open` of the control input path, the `write_all`, and the `flush`
succeed at the OS level. -/
structure CmdEnv where
  openOk : Bool
  writeOk : Bool
  flushOk : Bool
deriving DecidableEq

/-- Rust `command.ends_with("\n")`: the pattern is a single ASCII byte,
and the final byte of a UTF-8 string is that byte exactly when the
final character is `'\n'` (continuation bytes are ≥ 0x80). -/
def endsWithNewline (s : String) : Bool :=
  s.data.getLast? == some '\n'

/-- Embedding of `MinecraftControl::command` (src/minecraft.rs lines
73-92).  The source opens the control path with `.unwrap()`, appends a
newline to the payload when it does not already end in one, then calls
`write_all(..).unwrap()` and `flush().unwrap()`, and finally returns
`Ok(true)`.  The `ok` outcome carries the exact bytes written. -/
def command (env : CmdEnv) (cmd : String) : RustOutcome MinecraftError String :=
  if !env.openOk then .panicked
  else
    let cmd := if !endsWithNewline cmd then cmd ++ "\n" else cmd
    if !env.writeOk then .panicked
    else if !env.flushOk then .panicked
    else .ok cmd

/-- Outcome of one axum handler invocation: either the handler task
panicked, or it produced an HTTP status code. -/
inductive HandlerOutcome where
  | panicked
  | status (code : Nat)
deriving DecidableEq

/-- Embedding of the `command_writer` handler (src/main.rs lines
145-150): `Ok(_) => 200`, `Err(_) => 500`; a panic inside
`command` propagates (no catch-panic layer is installed). -/
def command_writer (env : CmdEnv) (body : String) : HandlerOutcome :=
  match command env body with
  | .panicked => .panicked
  | .ok _ => .status 200
  | .err _ => .status 500

end MinecraftControl

namespace MinecraftControl

/-- C1: the claim says that when delivery fails (open, write or flush
does not complete) `command` returns a failure result and the handler
responds 500.  In the source every failure path goes through
`.unwrap()`, so `command` panics instead of returning `Err`: the
handler's 500 branch is unreachable.  This theorem evaluates the code
at the failing input (open of the control path fails) and shows the
`Err` case never occurs for any environment and payload. -/
theorem c1_command_failure_panics :
    command ⟨false, true, true⟩ "say hello" = .panicked ∧
    command_writer ⟨false, true, true⟩ "say hello" = .panicked ∧
    ∀ (env : CmdEnv) (cmd : String), (command env cmd).isErr = false := by
  refine ⟨rfl, rfl, ?_⟩
  intro env cmd
  obtain ⟨o, w, f⟩ := env
  cases o <;> cases w <;> cases f <;> simp [command, RustOutcome.isErr]

/-- C2: for every payload, when open/write/flush all succeed, the bytes
written are the payload followed by one newline when the payload does
not already end in a newline, and exactly the payload otherwise; in
particular both `"say hello"` and `"say hello\n"` result in exactly
`"say hello\n"` being written. -/
theorem c2_command_normalization :
    (∀ s : String, command ⟨true, true, true⟩ s =
      .ok (if endsWithNewline s then s else s ++ "\n")) ∧
    command ⟨true, true, true⟩ "say hello" = .ok "say hello\n" ∧
    command ⟨true, true, true⟩ "say hello\n" = .ok "say hello\n" := by
  refine ⟨?_, by decide, by decide⟩
  intro s
  by_cases h : endsWithNewline s <;> simp [command, h]

end MinecraftControl

namespace MinecraftControl

/-- An HTTP response as produced by a handler: status code, optional
`Content-Type` header value, and the (fully streamed) body. -/
structure HttpResponse where
  status : Nat
  contentType : Option String
  body : String
deriving DecidableEq

/-- Rendering of `&'static str` as an axum response (the library's
`IntoResponse` impl): status 200 OK with the string as body and
`Content-Type: text/plain; charset=utf-8`.  This is how the handler's
`return Err("")` reaches the client, since `Result` renders the `Err`
payload. -/
def strIntoResponse (s : String) : HttpResponse :=
  ⟨200, some "text/plain; charset=utf-8", s⟩

/-- Embedding of `MinecraftControl::log` (src/minecraft.rs lines
64-71): opening the log file either yields its (streamed) content or
an io error.  The argument is the outcome of the OS-level open:
`some content` when the file can be opened, `none` otherwise. -/
def log (file : Option String) : RustOutcome MinecraftError String :=
  match file with
  | some content => .ok content
  | none => .err .LogError

/-- Embedding of the `log_handler` (src/main.rs lines 129-143): on
`Err` it returns `Err("")` (rendered by axum as `strIntoResponse ""`),
on `Ok` it returns the headers built with
`"text/plain; chatset=utf-8"` — the typo is in the source — and the
streamed file body, rendered with status 200. -/
def log_handler (file : Option String) : HttpResponse :=
  match log file with
  | .ok content => ⟨200, some "text/plain; chatset=utf-8", content⟩
  | _ => strIntoResponse ""

end MinecraftControl

namespace MinecraftControl

/-- C3: the claim says a GET /log whose source file cannot be opened
gets a not-found/error (404/error) status.  The handler does return
early without crashing, and the success path does stream the full
content, but the error path returns `Err("")`, which axum renders as
status 200 with an empty body — not an error status.  This theorem
evaluates the handler at the failing input and at a success input. -/
theorem c3_log_error_is_200 :
    log_handler none = strIntoResponse "" ∧
    (log_handler none).status = 200 ∧
    (∀ c : String, (log_handler (some c)).body = c ∧
      (log_handler (some c)).status = 200) := by
  refine ⟨rfl, rfl, ?_⟩
  intro c
  exact ⟨rfl, rfl⟩

/-- C8: the claim says every successful GET /log response carries
`Content-Type: text/plain; charset=utf-8`.  The source inserts the
misspelled value `text/plain; chatset=utf-8` ("chatset"), which is not
string-equal to the claimed value. -/
theorem c8_log_content_type_typo :
    (∀ c : String, (log_handler (some c)).contentType =
      some "text/plain; chatset=utf-8") ∧
    (("text/plain; chatset=utf-8" : String) ==
      "text/plain; charset=utf-8") = false := by
  exact ⟨fun c => rfl, by decide⟩

end MinecraftControl

namespace MinecraftControl

/-- One resolved `tokio::select!` iteration of the `handle_socket` loop
(src/main.rs lines 162-192): either the broadcast receive resolved, or
the websocket receive resolved.  `busLine msg sendOk` is
`Ok(msg)` from `rx.recv()` together with whether the subsequent
`sender.send(Message::Text(msg))` succeeds; `busLagged` and
`busClosed` are the two values of `RecvError` (the source matches both
with the single arm `Err(_e) => {}`); `wsFrame`, `wsError`, `wsEnded`
are `Some(Ok(_))`, `Some(Err(e))` and `None` from `receiver.next()`. -/
inductive SessionEvent where
  | busLine (msg : String) (sendOk : Bool)
  | busLagged
  | busClosed
  | wsFrame
  | wsError
  | wsEnded
deriving DecidableEq

/-- Result of one loop iteration: the loop continues (possibly having
forwarded a line to the client), breaks, or the task panicked.  No arm
of the source loop can panic, so `panicked` is never produced. -/
inductive StepResult where
  | cont (forwarded : Option String)
  | stop
  | panicked
deriving DecidableEq

/-- Embedding of one iteration of the `handle_socket` loop body.  Each
arm mirrors the source: a received bus line is forwarded and a send
failure breaks; both `RecvError` variants hit the ignoring arm
`Err(_e) => {}`; an inbound frame is ignored; an inbound error or
end-of-stream breaks. -/
def sessionStep : SessionEvent → StepResult
  | .busLine msg true => .cont (some msg)
  | .busLine _ false => .stop
  | .busLagged => .cont none
  | .busClosed => .cont none
  | .wsFrame => .cont none
  | .wsError => .stop
  | .wsEnded => .stop

/-- Runs the session loop over a finite schedule of resolved events,
returning the lines forwarded to the client and whether the loop has
terminated by the end of the schedule. -/
def sessionRun : List SessionEvent → List String × Bool
  | [] => ([], false)
  | e :: es =>
    match sessionStep e with
    | .cont none => sessionRun es
    | .cont (some m) => ((sessionRun es).1.cons m, (sessionRun es).2)
    | _ => ([], true)

end MinecraftControl

namespace MinecraftControl

/-- C4 counterexample: the claim says a "closed" report from the bus
terminates the session loop.  In the source, `Err(Closed)` falls into
the same catch-all arm as `Err(Lagged)` (`Err(_e) => {}`), which does
nothing: here a schedule of three consecutive closed reports leaves the
loop still running (terminated = false). -/
theorem c4_closed_does_not_stop :
    sessionRun [SessionEvent.busClosed, SessionEvent.busClosed,
      SessionEvent.busClosed] = ([], false) := by
  decide

/-- C4 amended: when the bus reports "closed", the session does not
panic, but it also does not terminate: the closed report is silently
ignored (the same arm as "lagged") and the loop continues, forwarding
nothing for that iteration. -/
theorem c4_closed_ignored_without_panic :
    sessionStep SessionEvent.busClosed = StepResult.cont none := by
  rfl

/-- C5: a "lagged" report never terminates the session: the step
continues without forwarding, it never panics, and a bus line received
after the lagged report is still forwarded to the transport. -/
theorem c5_lagged_continues :
    sessionStep SessionEvent.busLagged = StepResult.cont none ∧
    (∀ msg : String,
      sessionRun [SessionEvent.busLagged, SessionEvent.busLine msg true] =
        ([msg], false)) := by
  exact ⟨rfl, fun msg => rfl⟩

/-- C6: each of the three transport-side triggers terminates the
session on its own: a failed outbound write, an inbound read error,
and inbound end-of-stream (client closed). -/
theorem c6_transport_triggers_stop :
    (∀ msg : String, sessionRun [SessionEvent.busLine msg false] = ([], true)) ∧
    sessionRun [SessionEvent.wsError] = ([], true) ∧
    sessionRun [SessionEvent.wsEnded] = ([], true) := by
  exact ⟨fun msg => rfl, rfl, rfl⟩

end MinecraftControl

namespace MinecraftControl

/-- A raw journal entry as seen by `read_journal`: a finite map from
field names to values (the source uses a `BTreeMap<String, String>`). -/
structure JournalEntry where
  fields : List (String × String)
deriving DecidableEq

/-- Field access, `entry.get(key)` in the source. -/
def JournalEntry.get (e : JournalEntry) (k : String) : Option String :=
  e.fields.lookup k

/-- Embedding of the per-entry body of `read_journal` (src/minecraft.rs
lines 102-125): the unit is `entry.get("_SYSTEMD_UNIT")` defaulted to
`""`; when it equals the configured unit, `entry.get("MESSAGE")`
defaulted to `""` is sent to the bus (`some message`); otherwise the
entry is discarded (`none`). -/
def processEntry (systemd_unit : String) (entry : JournalEntry) : Option String :=
  let unit := match entry.get "_SYSTEMD_UNIT" with
    | some value => value
    | none => ""
  if unit == systemd_unit then
    let message := match entry.get "MESSAGE" with
      | some value => value
      | none => ""
    some message
  else
    none

end MinecraftControl

namespace MinecraftControl

/-- C7: for every raw journal entry, a line is published exactly when
the entry's `_SYSTEMD_UNIT` field (the empty string when absent)
equals the configured target unit, and the published line is then the
entry's message text verbatim; otherwise the entry is discarded. -/
theorem c7_journal_exact_filter (u : String) (e : JournalEntry) :
    processEntry u e =
      if (e.get "_SYSTEMD_UNIT").getD "" = u
      then some ((e.get "MESSAGE").getD "")
      else none := by
  rcases hu : e.get "_SYSTEMD_UNIT" with _ | v <;>
    rcases hm : e.get "MESSAGE" with _ | m <;>
      simp [processEntry, hu, hm, Option.getD, beq_iff_eq]

/-- C10: a journal entry whose unit matches the configured target but
whose `MESSAGE` field is absent is not skipped: the empty string is
published to the bus. -/
theorem c10_missing_message_publishes_empty (u : String) (e : JournalEntry)
    (hu : (e.get "_SYSTEMD_UNIT").getD "" = u)
    (hm : e.get "MESSAGE" = none) :
    processEntry u e = some "" := by
  rcases h : e.get "_SYSTEMD_UNIT" with _ | v <;>
    simp [h, Option.getD] at hu <;>
      simp [processEntry, h, hm, hu]

/-- Witness for C10 at a concrete entry: unit field matches the default
target unit and the `MESSAGE` field is absent. -/
theorem c10_missing_message_publishes_empty_witness :
    processEntry "minecraft-server.service"
      ⟨[("_SYSTEMD_UNIT", "minecraft-server.service")]⟩ = some "" :=
  c10_missing_message_publishes_empty "minecraft-server.service"
    ⟨[("_SYSTEMD_UNIT", "minecraft-server.service")]⟩ (by decide) (by decide)

end MinecraftControl

namespace MinecraftControl

/-- Model of the tokio broadcast channel created by `init`
(src/minecraft.rs line 44, `broadcast::channel(16)`): an append-only
history of every published line plus the channel capacity.  A receiver
is a cursor into that history; only the last `capacity` entries are
retained for delivery, older ones are evicted (the lagging-subscriber
policy). -/
structure Bus where
  capacity : Nat
  history : List String
deriving DecidableEq

/-- `tx.send(msg)`: appends the line for every current and future
cursor position; never blocks and never fails from the producer's
perspective. -/
def Bus.publish (b : Bus) (msg : String) : Bus :=
  ⟨b.capacity, b.history ++ [msg]⟩

/-- A live receiver handle: the index of the next line to read. -/
structure Subscription where
  pos : Nat
deriving DecidableEq

/-- Embedding of `MinecraftControl::subscribe` (src/minecraft.rs lines
60-62, `self.tx.subscribe()`): the new receiver's cursor starts at the
current end of the history, so it can observe only future publishes. -/
def Bus.subscribe (b : Bus) : Subscription :=
  ⟨b.history.length⟩

/-- Result of `rx.recv()`: no line available yet (the call would
suspend), a `Lagged` report that advances the cursor to the oldest
retained line, or the next line together with the advanced cursor. -/
inductive RecvResult where
  | pending
  | lagged (next : Subscription)
  | line (msg : String) (next : Subscription)
deriving DecidableEq

/-- `rx.recv()` against the modelled channel: a cursor more than
`capacity` behind the head observes a lag report and is moved to the
oldest retained line; otherwise the line at the cursor is delivered. -/
def Bus.recv (b : Bus) (s : Subscription) : RecvResult :=
  if b.history.length ≤ s.pos then .pending
  else if b.capacity < b.history.length - s.pos then
    .lagged ⟨b.history.length - b.capacity⟩
  else
    .line ((b.history.get? s.pos).getD "") ⟨s.pos + 1⟩

/-- An interleaving step: the producer publishes a line, or the
subscriber performs one `recv`. -/
inductive BusOp where
  | pub (msg : String)
  | recvStep
deriving DecidableEq

/-- Runs one subscriber (cursor `pos`) against an interleaving of
publishes and receives, returning the history indices of the lines the
subscriber actually received. -/
def busRun (b : Bus) (pos : Nat) : List BusOp → List Nat
  | [] => []
  | .pub m :: rest => busRun (b.publish m) pos rest
  | .recvStep :: rest =>
    match b.recv ⟨pos⟩ with
    | .pending => busRun b pos rest
    | .lagged next => busRun b next.pos rest
    | .line _ next => pos :: busRun b next.pos rest

/-- A subscriber cursor never moves backwards: every index delivered in
a run started at cursor `pos ≥ n` is itself `≥ n`. -/
theorem busRun_indices_ge (n : Nat) :
    ∀ (ops : List BusOp) (b : Bus) (pos : Nat), n ≤ pos →
      ∀ i ∈ busRun b pos ops, n ≤ i := by
  intro ops
  induction ops with
  | nil =>
    intro b pos h i hi
    simp [busRun] at hi
  | cons op rest ih =>
    intro b pos h i hi
    cases op with
    | pub m =>
      exact ih (b.publish m) pos h i hi
    | recvStep =>
      simp only [busRun, Bus.recv] at hi
      split at hi
      · exact ih b pos h i hi
      · rename_i next heq
        split at heq
        · exact absurd heq (by simp)
        · split at heq
          · injection heq with h2
            subst h2
            refine ih b _ ?_ i hi
            show n ≤ b.history.length - b.capacity
            omega
          · exact absurd heq (by simp)
      · rename_i msg next heq
        split at heq
        · exact absurd heq (by simp)
        · split at heq
          · exact absurd heq (by simp)
          · injection heq with hm h2
            subst h2
            rcases List.mem_cons.mp hi with rfl | hi2
            · exact h
            · refine ih b _ ?_ i hi2
              show n ≤ pos + 1
              omega

end MinecraftControl

namespace MinecraftControl

/-- C9: a subscription created by `subscribe()` starts at the current
end of the publish history, so for any interleaving of further
publishes and receives, every line it receives has a history index at
or after its subscription point: it never receives a line published
strictly before it joined. -/
theorem c9_no_replay (b : Bus) (ops : List BusOp) :
    ∀ i ∈ busRun b (b.subscribe).pos ops, (b.subscribe).pos ≤ i :=
  busRun_indices_ge (b.subscribe).pos ops b (b.subscribe).pos (Nat.le_refl _)

/-- Witness for C9: one line published before the subscription, one
after; the subscriber receives exactly the line at index 1, which is
at or after its subscription point. -/
theorem c9_no_replay_witness :
    (1 : Nat) ∈ busRun ⟨16, ["before"]⟩
      (Bus.subscribe ⟨16, ["before"]⟩).pos [BusOp.pub "after", BusOp.recvStep] ∧
    (Bus.subscribe ⟨16, ["before"]⟩).pos ≤ 1 :=
  ⟨by decide, c9_no_replay ⟨16, ["before"]⟩ [BusOp.pub "after", BusOp.recvStep]
    1 (by decide)⟩

end MinecraftControl
